import Mathlib

/-!
Shallow embedding of the auth/session Supabase edge function of
exam_revise_functions (source: src/unnamed/part_004) together with the parts of
its response envelope (src/unnamed/part_002: successResponse/errorResponse).

Modelling conventions:
* machine time is `Time := Nat`, whole seconds since the epoch; the 7-day TTL is
  `7 * 24 * 60 * 60` seconds;
* the Postgres/Supabase record store is a `Store` value (lists of user and
  session rows); each adapter call takes an explicit `dbFault : Bool` saying
  whether the underlying query reports an error on this call, mirroring the
  `if (error)` branches of the source;
* JWTs are modelled as an inductive `Token`: a structurally valid signed token
  carries its claim set and a flag saying whether the signature verifies under
  the server secret; everything else is `malformed`.  The external
  `jose.jwtVerify` is modelled from its documented behaviour (signature check,
  then `exp` check, distinct error kinds);
* JavaScript truthiness of strings (empty string is falsy) is modelled by
  explicit `= ""` tests (`jsOr`), and absent/undefined JSON keys by `Option`.
-/

abbrev Time := Nat

deriving instance DecidableEq for Except

/-- The JWT claim set signed by `createJWT` (source lines 550-556 / 872-876).
`utype` is the `type` claim of the source (renamed: `type` reads badly in Lean). -/
structure TokenPayload where
  userId : Nat
  email : String
  utype : String
  iat : Time
  exp : Time
  deriving DecidableEq

/-- A JWT as seen by the verifier: either a structurally well-formed signed
token (with a flag recording whether its signature verifies under the server
secret) or a structurally corrupt string. -/
inductive Token where
  | signed (payload : TokenPayload) (sigOk : Bool)
  | malformed (raw : String)
  deriving DecidableEq

/-- The two failure kinds of the external jose verifier. -/
inductive JoseFailure where
  | expired
  | invalid
  deriving DecidableEq

/-- Model of the external `jose.jwtVerify` (jose v4): structural corruption and
signature mismatch raise distinct-from-expiry errors; a correctly signed token
whose `exp` is not in the future raises `JWTExpired`. -/
def joseJwtVerify (t : Token) (now : Time) : Except JoseFailure TokenPayload :=
  match t with
  | .malformed _ => .error .invalid
  | .signed p sigOk =>
    if sigOk = false then .error .invalid
    else if p.exp ≤ now then .error .expired
    else .ok p

/-- `verifyJWT` (source lines 376-383): any jose failure is collapsed into the
single thrown error `Invalid or expired token`. -/
def verifyJWT (t : Token) (now : Time) : Except String TokenPayload :=
  match joseJwtVerify t now with
  | .ok p => .ok p
  | .error _ => .error "Invalid or expired token"

/-- `createJWT` (source lines 366-374): jose `setIssuedAt`/`setExpirationTime`
stamp `iat := now` and `exp := now + 7d` over whatever the caller put in the
payload, so both the login and the oauth paths issue the same claim shape. -/
def createJWT (userId : Nat) (email : String) (utype : String) (now : Time) : Token :=
  .signed { userId := userId, email := email, utype := utype,
            iat := now, exp := now + 7 * 24 * 60 * 60 } true

/-- JS `a || b` on strings: the empty string is falsy. -/
def jsOr (a b : String) : String := if a = "" then b else a

/-- JS `x || d` where `x` is a possibly-absent string field. -/
def jsOrStr (x : Option String) (d : String) : String :=
  match x with
  | some v => if v = "" then d else v
  | none => d

/-- JS `x || null` on a nullable string (empty string collapses to null). -/
def jsOrNone (x : Option String) : Option String :=
  match x with
  | some v => if v = "" then none else some v
  | none => none

/-- `needle` is a prefix of `hay` (structural, so proofs can evaluate it). -/
def charsHavePrefix : List Char → List Char → Bool
  | [], _ => true
  | _ :: _, [] => false
  | a :: as, b :: bs => decide (a = b) && charsHavePrefix as bs

/-- `needle` occurs somewhere in `hay`. -/
def charsContain (hay needle : List Char) : Bool :=
  match hay with
  | [] => needle.isEmpty
  | _ :: t => charsHavePrefix needle hay || charsContain t needle

/-- JS `hay.includes(needle)`. -/
def includesToken (hay needle : String) : Bool :=
  charsContain hay.toList needle.toList

/-- JS `s.startsWith(p)`. -/
def strStartsWith (s p : String) : Bool :=
  charsHavePrefix p.toList s.toList

/-- JS `s.split(sep)` for a one-character separator. -/
def splitOnChar (sep : Char) : List Char → List (List Char)
  | [] => [[]]
  | c :: t =>
    match splitOnChar sep t with
    | [] => [[]]
    | h :: rt => if c = sep then [] :: h :: rt else (c :: h) :: rt

/-- JS `s.toLowerCase()`. -/
def strToLower (s : String) : String :=
  String.mk (s.toList.map Char.toLower)

/-- JS `s.trim()`. -/
def strTrim (s : String) : String :=
  String.mk ((((s.toList.dropWhile Char.isWhitespace).reverse).dropWhile
    Char.isWhitespace).reverse)

/-- The `DeviceInfo` JSON object (source interface lines 88-95).  Each field is
optional because client-supplied `device_info` blobs may omit any key. -/
structure DeviceInfo where
  browser : Option String := none
  os : Option String := none
  device : Option String := none
  mobile : Option Bool := none
  timestamp : Option Time := none
  ipAddress : Option String := none
  deriving DecidableEq

/-- A `users` row (source interface lines 97-107 plus the columns the handlers
read/write).  `is_blocked` folds the nullable column through JS truthiness. -/
structure User where
  user_id : Nat
  email : String
  user_name : String
  fname : String
  sname : String
  utype : String
  password : Option String
  is_blocked : Bool
  created_at : Time
  updated_at : Time
  deriving DecidableEq

/-- A `user_sessions` row (source interface lines 109-122). -/
structure SessionInfo where
  session_id : Nat
  user_id : Nat
  session_token : Token
  device_info : Option DeviceInfo
  ip_address : Option String
  user_agent : Option String
  login_method : String
  created_at : Time
  updated_at : Time
  expires_at : Time
  is_active : Bool
  last_activity : Time
  deriving DecidableEq

/-- The external record store: the `users` and `user_sessions` tables. -/
structure Store where
  users : List User
  sessions : List SessionInfo
  deriving DecidableEq

/-- Which database calls report an error during one request (all default to
succeeding).  Mirrors the `if (error)` / `catch` branches of the source. -/
structure Faults where
  body : Bool := false
  userLookup : Bool := false
  sessionLookup : Bool := false
  conflictQuery : Bool := false
  invalidateOthers : Bool := false
  invalidate : Bool := false
  create : Bool := false
  touch : Bool := false
  userUpdate : Bool := false
  userInsert : Bool := false
  deriving DecidableEq

/-- Result of `createSession`. -/
structure CreateSessionResult where
  store : Store
  success : Bool
  session : Option SessionInfo
  error : Option String
  deriving DecidableEq

/-- `createSession` (source lines 125-163): inserts an active 7-day session row.
The database assigns `session_id`; we model it as one past the current row
count, which no claim depends on. -/
def createSession (userId : Nat) (sessionToken : Token) (deviceInfo : DeviceInfo)
    (ipAddress : Option String) (userAgent : Option String) (loginMethod : String)
    (now : Time) (dbFault : Bool) (s : Store) : CreateSessionResult :=
  if dbFault then
    { store := s, success := false, session := none,
      error := some "Failed to create session record" }
  else
    let row : SessionInfo :=
      { session_id := s.sessions.length + 1
        user_id := userId
        session_token := sessionToken
        device_info := some deviceInfo
        ip_address := ipAddress
        user_agent := userAgent
        login_method := loginMethod
        created_at := now
        updated_at := now
        expires_at := now + 7 * 24 * 60 * 60
        is_active := true
        last_activity := now }
    { store := { s with sessions := s.sessions ++ [row] },
      success := true, session := some row, error := none }

/-- Result of a store mutation that only reports success/failure. -/
structure StoreOpResult where
  store : Store
  success : Bool
  error : Option String
  deriving DecidableEq

/-- `invalidateSession` (source lines 165-187): `update {is_active:false,
updated_at:now} where session_token = token`; matching zero rows is not an
error. -/
def invalidateSession (sessionToken : Token) (now : Time) (dbFault : Bool)
    (s : Store) : StoreOpResult :=
  if dbFault then
    { store := s, success := false, error := some "Failed to invalidate session" }
  else
    { store := { s with sessions := s.sessions.map (fun r =>
        if r.session_token = sessionToken then
          { r with is_active := false, updated_at := now }
        else r) },
      success := true, error := none }

/-- The row filter of `invalidateOtherSessions`: active rows of the user, minus
the excepted token when one is given. -/
def otherActiveRow (userId : Nat) (exceptToken : Option Token) (r : SessionInfo) : Bool :=
  decide (r.user_id = userId) && r.is_active &&
    (match exceptToken with
     | none => true
     | some t => decide (r.session_token ≠ t))

/-- Result of `invalidateOtherSessions`. -/
structure InvalidateOthersResult where
  store : Store
  success : Bool
  invalidatedCount : Nat
  error : Option String
  deriving DecidableEq

/-- `invalidateOtherSessions` (source lines 189-222): one filtered update over
the active rows of the user (excluding `exceptToken` when given), returning the
number of rows affected (`data.length` of the update's `select`). -/
def invalidateOtherSessions (userId : Nat) (exceptToken : Option Token) (now : Time)
    (dbFault : Bool) (s : Store) : InvalidateOthersResult :=
  if dbFault then
    { store := s, success := false, invalidatedCount := 0,
      error := some "Failed to invalidate sessions" }
  else
    { store := { s with sessions := s.sessions.map (fun r =>
        if otherActiveRow userId exceptToken r then
          { r with is_active := false, updated_at := now }
        else r) },
      success := true,
      invalidatedCount := (s.sessions.filter (otherActiveRow userId exceptToken)).length,
      error := none }

/-- The row filter of `validateSession`: `session_token = token AND is_active
AND expires_at > now`. -/
def activeTokenRow (sessionToken : Token) (now : Time) (r : SessionInfo) : Bool :=
  decide (r.session_token = sessionToken ∧ r.is_active = true ∧ now < r.expires_at)

/-- Result of `validateSession` (read-only). -/
structure ValidateSessionResult where
  valid : Bool
  session : Option SessionInfo
  error : Option String
  deriving DecidableEq

/-- `validateSession` (source lines 224-245): `.single()` succeeds exactly when
the filter matches one row; a store error or any other row count reports the
session as not found. -/
def validateSession (sessionToken : Token) (now : Time) (dbFault : Bool)
    (s : Store) : ValidateSessionResult :=
  if dbFault then
    { valid := false, session := none, error := some "Session not found or expired" }
  else
    match s.sessions.filter (activeTokenRow sessionToken now) with
    | [row] => { valid := true, session := some row, error := none }
    | _ => { valid := false, session := none, error := some "Session not found or expired" }

/-- `updateSessionActivity` (source lines 247-269): best-effort touch of
`last_activity`/`updated_at` on every row holding the token. -/
def updateSessionActivity (sessionToken : Token) (now : Time) (dbFault : Bool)
    (s : Store) : StoreOpResult :=
  if dbFault then
    { store := s, success := false, error := some "Failed to update session activity" }
  else
    { store := { s with sessions := s.sessions.map (fun r =>
        if r.session_token = sessionToken then
          { r with last_activity := now, updated_at := now }
        else r) },
      success := true, error := none }

/-- The row filter of `checkSessionConflict` / the listActive query:
`user_id = userId AND is_active AND expires_at > now`. -/
def activeUserRow (userId : Nat) (now : Time) (r : SessionInfo) : Bool :=
  decide (r.user_id = userId ∧ r.is_active = true ∧ now < r.expires_at)

/-- The active sessions a user has in a store (the listActive filter, order
left as stored; used in theorem statements). -/
def activeSessionsFor (s : Store) (userId : Nat) (now : Time) : List SessionInfo :=
  s.sessions.filter (activeUserRow userId now)

/-- Insertion step for the `order by last_activity descending` of the
listActive query. -/
def insertByActivity (x : SessionInfo) : List SessionInfo → List SessionInfo
  | [] => [x]
  | y :: ys =>
    if y.last_activity ≤ x.last_activity then x :: y :: ys
    else y :: insertByActivity x ys

/-- `order by last_activity descending` as an insertion sort. -/
def sortByActivityDesc : List SessionInfo → List SessionInfo
  | [] => []
  | x :: xs => insertByActivity x (sortByActivityDesc xs)

/-- The per-session comparison of `checkSessionConflict` (source lines 301-308):
`session.device_info || {}` against the candidate on the (browser, os, device)
triplet; any field mismatch counts as a different device. -/
def deviceDiffers (stored : Option DeviceInfo) (current : DeviceInfo) : Bool :=
  let d := stored.getD {}
  decide (d.browser ≠ current.browser ∨ d.os ≠ current.os ∨ d.device ≠ current.device)

/-- Result of `checkSessionConflict`. -/
structure ConflictCheckResult where
  hasConflict : Bool
  activeSessions : List SessionInfo
  shouldPrompt : Bool
  message : Option String
  deriving DecidableEq

/-- `checkSessionConflict` (source lines 271-325).  A store error (or a thrown
exception, which takes the same `catch` shape) yields the fail-open result. -/
def checkSessionConflict (userId : Nat) (currentDeviceInfo : DeviceInfo) (now : Time)
    (dbFault : Bool) (s : Store) : ConflictCheckResult :=
  if dbFault then
    { hasConflict := false, activeSessions := [], shouldPrompt := false, message := none }
  else
    let activeSessions := sortByActivityDesc (s.sessions.filter (activeUserRow userId now))
    if activeSessions.length = 0 then
      { hasConflict := false, activeSessions := [], shouldPrompt := false, message := none }
    else
      let differentDeviceSessions :=
        activeSessions.filter (fun r => deviceDiffers r.device_info currentDeviceInfo)
      let hasConflict := decide (differentDeviceSessions.length > 0)
      let shouldPrompt := hasConflict && decide (differentDeviceSessions.length > 0)
      { hasConflict := hasConflict
        activeSessions := activeSessions
        shouldPrompt := shouldPrompt
        message :=
          if shouldPrompt then
            some ("You have " ++ toString differentDeviceSessions.length ++
              " active session(s) on other devices. Do you want to log out from those devices and continue?")
          else none }

/-- `extractDeviceInfo` (source lines 327-364).  `additionalInfo` is the object
spread over the parsed profile (`{...parsed, ...additionalInfo}`): a `some`
field is a key present in the client blob and overrides the parsed value.
`now` stands for `new Date()` at capture time. -/
def extractDeviceInfo (userAgent : Option String) (additionalInfo : DeviceInfo)
    (now : Time) : DeviceInfo :=
  let browser :=
    match userAgent with
    | none => "Unknown"
    | some ua =>
      if includesToken ua "Chrome" then "Chrome"
      else if includesToken ua "Firefox" then "Firefox"
      else if includesToken ua "Safari" then "Safari"
      else if includesToken ua "Edge" then "Edge"
      else if includesToken ua "Opera" then "Opera"
      else "Unknown"
  let os :=
    match userAgent with
    | none => "Unknown"
    | some ua =>
      if includesToken ua "Windows" then "Windows"
      else if includesToken ua "Mac" then "macOS"
      else if includesToken ua "Linux" then "Linux"
      else if includesToken ua "Android" then "Android"
      else if includesToken ua "iPhone" || includesToken ua "iPad" then "iOS"
      else "Unknown"
  let mobile :=
    match userAgent with
    | none => false
    | some ua =>
      includesToken ua "Mobile" || includesToken ua "Android" ||
        includesToken ua "iPhone" || includesToken ua "iPad"
  let device :=
    match userAgent with
    | none => "Desktop"
    | some _ => if mobile then "Mobile" else "Desktop"
  { browser := some (additionalInfo.browser.getD browser)
    os := some (additionalInfo.os.getD os)
    device := some (additionalInfo.device.getD device)
    mobile := some (additionalInfo.mobile.getD mobile)
    timestamp := some (additionalInfo.timestamp.getD now)
    ipAddress := additionalInfo.ipAddress }

/-- `verifyPassword` (source lines 34-63): the temporary stand-in that only
accepts the one hard-coded test pair after a bcrypt-shape check. -/
def verifyPassword (password hash : String) : Bool :=
  if strStartsWith hash "$2a$" || strStartsWith hash "$2b$" then
    let parts := splitOnChar '$' hash.toList
    if parts.length ≠ 4 then false
    else if password = "initialpassword" ∧
        hash = "$2a$06$3a0FMWf9jfml3C7.2YiH4u.LA5nH4GUQNChFsMLyiFrjMKtkr/TPa" then true
    else false
  else false

/-- The regex `\S+@\S+\.\S+` (unanchored): some contiguous run
nonspace+, `@`, nonspace+, `.`, nonspace+ occurs in the string. -/
def emailFormatOk (s : String) : Bool :=
  let cs := s.toList
  let nonspace : Nat → Bool := fun i => !(cs.getD i ' ').isWhitespace
  (List.range cs.length).any (fun p =>
    (List.range cs.length).any (fun q =>
      decide (1 ≤ p) && decide (p + 2 ≤ q) && decide (q + 1 < cs.length) &&
      decide (cs.getD p ' ' = '@') && decide (cs.getD q ' ' = '.') &&
      nonspace (p - 1) && nonspace (q + 1) &&
      (List.range (q - p - 1)).all (fun k => nonspace (p + 1 + k))))

/-- The `users` lookup by email with `.single()` (source lines 477-481 and
1087-1091): an error, zero rows or more than one row all land in the
`userError || !user` branch. -/
def findUserByEmail (email : String) (fault : Bool) (users : List User) : Option User :=
  if fault then none
  else
    match users.filter (fun u => decide (u.email = email)) with
    | [u] => some u
    | _ => none

/-- The `users` lookup of `/validate` (source lines 1009-1014):
`user_id = decoded.userId AND email = decoded.email`, `.single()`. -/
def findUserById (userId : Nat) (email : String) (fault : Bool)
    (users : List User) : Option User :=
  if fault then none
  else
    match users.filter (fun u => decide (u.user_id = userId ∧ u.email = email)) with
    | [u] => some u
    | _ => none

/-- Request headers and the tokens recoverable from them.  `authToken` stands
for a `Bearer` token in the authorization header, `cookieToken` for the
`exam_revise_session` cookie; the transport encoding of tokens is abstracted. -/
structure RequestMeta where
  userAgent : Option String := none
  xForwardedFor : Option String := none
  xRealIp : Option String := none
  authToken : Option Token := none
  cookieToken : Option Token := none

/-- `getIPAddress` (source lines 385-394): first entry of `x-forwarded-for`
(trimmed), else `x-real-ip || null`; JS truthiness makes an empty header
fall through. -/
def getIPAddress (m : RequestMeta) : Option String :=
  match m.xForwardedFor with
  | some f =>
    if f = "" then jsOrNone m.xRealIp
    else some (strTrim (String.mk ((splitOnChar ',' f.toList).headD [])))
  | none => jsOrNone m.xRealIp

/-- Token recovery shared by `/logout` and `/validate`: authorization header
first, cookie second (source lines 658-674 and 941-958). -/
def tokenOf (m : RequestMeta) : Option Token :=
  match m.authToken with
  | some t => some t
  | none => m.cookieToken

/-- The unified client-visible user profile built on success paths
(source lines 588-597, 905-914, 1037-1047). -/
structure UserData where
  id : Nat
  email : String
  userName : String
  firstName : String
  lastName : String
  utype : String
  authType : String
  loginTime : Time
  lastLogin : Option Time := none
  deriving DecidableEq

/-- The projection of a session row sent back in conflict/check responses
(source lines 526-532, 848-854, 1121-1127). -/
structure PublicSession where
  session_id : Nat
  device_info : Option DeviceInfo
  last_activity : Time
  created_at : Time
  login_method : String
  deriving DecidableEq

def toPublicSession (r : SessionInfo) : PublicSession :=
  { session_id := r.session_id
    device_info := r.device_info
    last_activity := r.last_activity
    created_at := r.created_at
    login_method := r.login_method }

/-- Values written into `Set-Cookie` headers. -/
inductive CookieValue where
  | token (t : Token)
  | userJson (u : UserData)
  | cleared
  deriving DecidableEq

/-- One cookie set by a response.  `pastDated` records the
`expires=Thu, 01 Jan 1970` clearing attribute. -/
structure SetCookie where
  name : String
  value : CookieValue
  pastDated : Bool
  domain : Option String := none
  deriving DecidableEq

def sessionCookie (t : Token) : SetCookie :=
  { name := "exam_revise_session", value := .token t, pastDated := false }

def userCookie (u : UserData) : SetCookie :=
  { name := "user", value := .userJson u, pastDated := false }

def clearedCookie (name : String) (domain : Option String) : SetCookie :=
  { name := name, value := .cleared, pastDated := true, domain := domain }

/-- `/login` request body (source interface lines 66-72); `deviceInfo` is the
client hint blob merged into the extracted profile. -/
structure LoginRequest where
  email : String
  password : String
  callbackUrl : String := "/"
  forceLogin : Bool := false
  deviceInfo : DeviceInfo := {}

/-- `/login` response bodies: the `successResponse` data, the bare 409 conflict
JSON, or an `errorResponse`. -/
inductive LoginBody where
  | ok (user : UserData) (redirectUrl : String) (token : Token) (message : String)
  | conflict (message : Option String) (activeSessions : List PublicSession)
      (currentDevice : DeviceInfo)
  | err (error : String)
  deriving DecidableEq

structure LoginResponse where
  status : Nat
  body : LoginBody
  cookies : List SetCookie
  store : Store
  deriving DecidableEq

/-- `handleLogin` (source lines 462-650).  `f.body` stands for `c.req.json()`
throwing (the only uncaught throw, landing in the outer catch); the JWT/session
`try` blocks cannot throw in the model, so their 500 branches are represented
only by `createSession` reporting failure. -/
def handleLogin (req : LoginRequest) (meta : RequestMeta) (now : Time)
    (f : Faults) (s : Store) : LoginResponse :=
  if f.body then
    { status := 500, body := .err "An internal error occurred. Please try again.",
      cookies := [], store := s }
  else if req.email = "" ∨ req.password = "" then
    { status := 400, body := .err "Email and password are required",
      cookies := [], store := s }
  else if ¬ emailFormatOk req.email then
    { status := 400, body := .err "Invalid email format", cookies := [], store := s }
  else
    match findUserByEmail (strTrim (strToLower req.email)) f.userLookup s.users with
    | none =>
      { status := 401, body := .err "Invalid email or password", cookies := [], store := s }
    | some user =>
      if user.is_blocked then
        { status := 403,
          body := .err "Your account has been blocked. Please contact the administrator at no-reply@examrevise.co.uk for assistance.",
          cookies := [], store := s }
      else
        match user.password with
        | none =>
          { status := 401,
            body := .err "This email is registered with Google. Please use \"Continue with Google\" to sign in.",
            cookies := [], store := s }
        | some pw =>
          if ¬ verifyPassword req.password pw then
            { status := 401, body := .err "Invalid email or password",
              cookies := [], store := s }
          else
            let userAgent := meta.userAgent
            let ipAddress := getIPAddress meta
            let deviceInfo :=
              extractDeviceInfo userAgent { req.deviceInfo with ipAddress := ipAddress } now
            let cc := checkSessionConflict user.user_id deviceInfo now f.conflictQuery s
            if req.forceLogin = false ∧ cc.hasConflict = true ∧ cc.shouldPrompt = true then
              { status := 409,
                body := .conflict cc.message (cc.activeSessions.map toPublicSession) deviceInfo,
                cookies := [], store := s }
            else
              let s1 :=
                if req.forceLogin then
                  (invalidateOtherSessions user.user_id none now f.invalidateOthers s).store
                else s
              let token := createJWT user.user_id user.email user.utype now
              let cr := createSession user.user_id token deviceInfo ipAddress userAgent
                "email" now f.create s1
              if cr.success = false then
                { status := 500, body := .err "Failed to create session. Please try again.",
                  cookies := [], store := cr.store }
              else
                let userData : UserData :=
                  { id := user.user_id
                    email := user.email
                    userName := jsOr user.user_name ""
                    firstName := jsOr user.fname ""
                    lastName := jsOr user.sname ""
                    utype := jsOr user.utype "user"
                    authType := "email"
                    loginTime := now }
                let s2 :=
                  if f.userUpdate then cr.store
                  else { cr.store with users := cr.store.users.map (fun u =>
                    if u.user_id = user.user_id then { u with updated_at := now } else u) }
                { status := 200
                  body := .ok userData req.callbackUrl token "Login successful"
                  cookies := [sessionCookie token, userCookie userData]
                  store := s2 }

structure LogoutBody where
  success : Bool
  message : String
  redirectUrl : String
  deriving DecidableEq

structure LogoutResponse where
  status : Nat
  body : LogoutBody
  cookies : List SetCookie
  store : Store
  deriving DecidableEq

/-- `handleLogout` (source lines 652-756).  `f.body` is `c.req.json()` throwing,
which lands in the outer catch; everything else (bad/missing token, failed
invalidation, failed upstream signout) is swallowed on the success path.
`decoded.userId` is gated by JS truthiness, so a zero id skips invalidation. -/
def handleLogout (redirectUrl : String) (meta : RequestMeta) (now : Time)
    (f : Faults) (s : Store) : LogoutResponse :=
  if f.body then
    { status := 200
      body := { success := true, message := "Logout completed (with errors)", redirectUrl := "/" }
      cookies := [clearedCookie "exam_revise_session" none, clearedCookie "user" none,
        clearedCookie "oauth_fresh" none]
      store := s }
  else
    let s1 :=
      match tokenOf meta with
      | none => s
      | some token =>
        match verifyJWT token now with
        | .error _ => s
        | .ok decoded =>
          if decoded.userId ≠ 0 then (invalidateSession token now f.invalidate s).store
          else s
    { status := 200
      body := { success := true, message := "Logged out successfully", redirectUrl := redirectUrl }
      cookies := (["exam_revise_session", "user", "oauth_fresh"].map (fun n =>
        [clearedCookie n none, clearedCookie n (some ".examrevise.co.uk"),
          clearedCookie n (some ".vercel.app")])).flatten
      store := s1 }

/-- The `/validate` JSON body, with field presence mirrored by `Option` and the
absent `requiresAuth`/`blocked` keys of the success shape as `false`. -/
structure ValidateBody where
  valid : Bool
  error : Option String := none
  requiresAuth : Bool := false
  blocked : Bool := false
  user : Option UserData := none
  expiresAt : Option Time := none
  expiresIn : Option Int := none
  tokenIssued : Option Time := none
  message : Option String := none
  deriving DecidableEq

structure ValidateResponse where
  status : Nat
  body : ValidateBody
  store : Store
  deriving DecidableEq

/-- `handleValidate` (source lines 939-1070).  All store calls report errors as
values rather than throwing, so the outer-catch 500 is unreachable here. -/
def handleValidate (meta : RequestMeta) (now : Time) (f : Faults) (s : Store) :
    ValidateResponse :=
  match tokenOf meta with
  | none =>
    { status := 401,
      body := { valid := false, error := some "No authentication token provided",
                requiresAuth := true },
      store := s }
  | some token =>
    match verifyJWT token now with
    | .error _ =>
      { status := 401,
        body := { valid := false, error := some "Invalid or expired token",
                  requiresAuth := true },
        store := s }
    | .ok decoded =>
      if decoded.exp < now then
        { status := 401,
          body := { valid := false, error := some "Token has expired", requiresAuth := true },
          store := s }
      else
        let sv := validateSession token now f.sessionLookup s
        if sv.valid = false then
          { status := 401,
            body := { valid := false,
                      error := some (sv.error.getD "Session not found or expired"),
                      requiresAuth := true },
            store := s }
        else
          let s1 := (updateSessionActivity token now f.touch s).store
          match findUserById decoded.userId decoded.email f.userLookup s1.users with
          | none =>
            { status := 401,
              body := { valid := false, error := some "User account not found",
                        requiresAuth := true },
              store := s1 }
          | some user =>
            if user.is_blocked then
              { status := 403,
                body := { valid := false,
                          error := some "Your account has been blocked. Please contact the administrator at no-reply@examrevise.co.uk for assistance.",
                          requiresAuth := true, blocked := true },
                store := s1 }
            else
              let userData : UserData :=
                { id := user.user_id
                  email := user.email
                  userName := jsOr user.user_name ""
                  firstName := jsOr user.fname ""
                  lastName := jsOr user.sname ""
                  utype := jsOr user.utype "user"
                  authType := "email"
                  loginTime := user.updated_at
                  lastLogin := some user.updated_at }
              { status := 200
                body := { valid := true
                          user := some userData
                          expiresAt := some decoded.exp
                          expiresIn := some ((decoded.exp : Int) - (now : Int))
                          tokenIssued := some decoded.iat
                          message := some "Session is valid" }
                store := s1 }

/-- The `successResponse` data of `/check-session`; the two success shapes
differ in which keys exist (source lines 1093-1100 vs 1117-1129). -/
structure CheckSessionData where
  hasConflict : Bool
  shouldPrompt : Bool
  message : Option String
  activeSessions : Option (List PublicSession)
  currentDevice : Option DeviceInfo
  deriving DecidableEq

inductive CheckBody where
  | ok (data : CheckSessionData)
  | err (error : String)
  deriving DecidableEq

structure CheckResponse where
  status : Nat
  body : CheckBody
  deriving DecidableEq

/-- `handleCheckSession` (source lines 1072-1135). -/
def handleCheckSession (email : String) (clientDeviceInfo : DeviceInfo)
    (meta : RequestMeta) (now : Time) (f : Faults) (s : Store) : CheckResponse :=
  if f.body then
    { status := 500, body := .err "An internal error occurred. Please try again." }
  else if email = "" then
    { status := 400, body := .err "Email is required" }
  else if ¬ emailFormatOk email then
    { status := 400, body := .err "Invalid email format" }
  else
    match findUserByEmail (strTrim (strToLower email)) f.userLookup s.users with
    | none =>
      { status := 200,
        body := .ok { hasConflict := false, shouldPrompt := false,
                      message := some "No existing sessions found",
                      activeSessions := none, currentDevice := none } }
    | some user =>
      if user.is_blocked then
        { status := 403,
          body := .err "Your account has been blocked. Please contact the administrator at no-reply@examrevise.co.uk for assistance." }
      else
        let deviceInfo :=
          extractDeviceInfo meta.userAgent
            { clientDeviceInfo with ipAddress := getIPAddress meta } now
        let cc := checkSessionConflict user.user_id deviceInfo now f.conflictQuery s
        { status := 200,
          body := .ok { hasConflict := cc.hasConflict, shouldPrompt := cc.shouldPrompt,
                        message := cc.message,
                        activeSessions := some (cc.activeSessions.map toPublicSession),
                        currentDevice := some deviceInfo } }

/-- The `user_metadata` of the external identity (Supabase `auth.getUser`). -/
structure ExtUserMetadata where
  full_name : Option String := none
  name : Option String := none
  given_name : Option String := none
  family_name : Option String := none
  deriving DecidableEq

/-- The external identity returned by the identity authority for a valid
access token. -/
structure ExtUser where
  email : String
  user_metadata : ExtUserMetadata := {}
  deriving DecidableEq

/-- `registrationData` hints of `/oauth-process` (only their presence and the
columns copied into the new user row matter). -/
structure RegistrationData where
  examId : Option Nat := none
  subjectId : Option Nat := none
  boardId : Option Nat := none
  marketingOptIn : Bool := false
  deriving DecidableEq

/-- `/oauth-process` request body (source interface lines 74-81).
`hasAccessToken` is the JS truthiness gate `if (!access_token)`; the token
itself is opaque and its exchange result is passed separately. -/
structure OAuthRequest where
  hasAccessToken : Bool := true
  forceLogin : Bool := false
  deviceInfo : DeviceInfo := {}
  registrationData : Option RegistrationData := none

inductive OAuthBody where
  | ok (user_id : Nat) (email user_name fname sname utype : String) (token : Token)
  | conflict (message : Option String) (activeSessions : List PublicSession)
      (currentDevice : DeviceInfo)
  | err (error : String)
  deriving DecidableEq

structure OAuthResponse where
  status : Nat
  body : OAuthBody
  cookies : List SetCookie
  store : Store
  deriving DecidableEq

/-- A fresh `user_id` for the oauth-created user row (the database assigns it;
no claim depends on the exact numbering). -/
def freshUserId (s : Store) : Nat :=
  (s.users.map (fun u => u.user_id)).foldr max 0 + 1

/-- The shared tail of `handleOAuthProcess` once a local user row is resolved
(source lines 837-931): conflict gate, forced invalidation, token issue,
session create, cookies. -/
def oauthSessionPhase (userData : User) (isNewRegistration : Bool)
    (req : OAuthRequest) (meta : RequestMeta) (deviceInfo : DeviceInfo)
    (ipAddress : Option String) (now : Time) (f : Faults) (s : Store) : OAuthResponse :=
  let cc := checkSessionConflict userData.user_id deviceInfo now f.conflictQuery s
  if req.forceLogin = false ∧ isNewRegistration = false ∧
      cc.hasConflict = true ∧ cc.shouldPrompt = true then
    { status := 409,
      body := .conflict cc.message (cc.activeSessions.map toPublicSession) deviceInfo,
      cookies := [], store := s }
  else
    let s1 :=
      if req.forceLogin then
        (invalidateOtherSessions userData.user_id none now f.invalidateOthers s).store
      else s
    let token := createJWT userData.user_id userData.email userData.utype now
    let cr := createSession userData.user_id token deviceInfo ipAddress meta.userAgent
      "oauth" now f.create s1
    if cr.success = false then
      { status := 500, body := .err "Failed to create session. Please try again.",
        cookies := [], store := cr.store }
    else
      let userCookieData : UserData :=
        { id := userData.user_id
          email := userData.email
          userName := jsOr userData.user_name ""
          firstName := jsOr userData.fname ""
          lastName := jsOr userData.sname ""
          utype := jsOr userData.utype "user"
          authType := "oauth"
          loginTime := now }
      { status := 200
        body := .ok userData.user_id userData.email userData.user_name userData.fname
          userData.sname userData.utype token
        cookies := [sessionCookie token, userCookie userCookieData]
        store := cr.store }

/-- `handleOAuthProcess` (source lines 758-937).  `getUserResult` is the
identity authority's answer for the access token (`none` = error or no user);
the local lookup uses the raw external email (not lowercased, unlike login). -/
def handleOAuthProcess (req : OAuthRequest) (getUserResult : Option ExtUser)
    (meta : RequestMeta) (now : Time) (f : Faults) (s : Store) : OAuthResponse :=
  if f.body then
    { status := 500, body := .err "Failed to process OAuth authentication",
      cookies := [], store := s }
  else if req.hasAccessToken = false then
    { status := 400, body := .err "No access token provided", cookies := [], store := s }
  else
    let ipAddress := getIPAddress meta
    let deviceInfo :=
      extractDeviceInfo meta.userAgent { req.deviceInfo with ipAddress := ipAddress } now
    match getUserResult with
    | none =>
      { status := 401, body := .err "Invalid access token", cookies := [], store := s }
    | some extUser =>
      let isNewRegistration := req.registrationData.isSome
      match findUserByEmail extUser.email f.userLookup s.users with
      | some existingUser =>
        if existingUser.is_blocked then
          { status := 403,
            body := .err "Your account has been blocked. Please contact the administrator at no-reply@examrevise.co.uk for assistance.",
            cookies := [], store := s }
        else
          oauthSessionPhase existingUser isNewRegistration req meta deviceInfo ipAddress now f s
      | none =>
        let m := extUser.user_metadata
        let fullName := jsOrStr m.full_name (jsOrStr m.name "")
        let nameParts := (splitOnChar ' ' fullName.toList).map String.mk
        let firstName := jsOrStr m.given_name (jsOr (nameParts.headD "") "")
        let lastName :=
          jsOrStr m.family_name
            (jsOr (String.intercalate " " (nameParts.drop 1)) "")
        if f.userInsert then
          { status := 500, body := .err "Failed to create user account",
            cookies := [], store := s }
        else
          let newUser : User :=
            { user_id := freshUserId s
              email := extUser.email
              user_name := jsOr firstName
                (jsOr (((splitOnChar '@' extUser.email.toList).map String.mk).headD "") "User")
              fname := firstName
              sname := lastName
              utype := "user"
              password := none
              is_blocked := false
              created_at := now
              updated_at := now }
          let s1 : Store := { s with users := s.users ++ [newUser] }
          oauthSessionPhase newUser isNewRegistration req meta deviceInfo ipAddress now f s1

/-! ### Concrete fixtures used by witnesses and counterexamples -/

/-- The one hash accepted by the placeholder `verifyPassword`. -/
def fxHash : String := "$2a$06$3a0FMWf9jfml3C7.2YiH4u.LA5nH4GUQNChFsMLyiFrjMKtkr/TPa"

def fxUser : User :=
  { user_id := 1, email := "a@b.c", user_name := "alice", fname := "A", sname := "B",
    utype := "user", password := some fxHash, is_blocked := false,
    created_at := 0, updated_at := 0 }

def fxBlockedUser : User :=
  { fxUser with user_id := 2, email := "b@b.c", is_blocked := true }

def fxToken : Token := createJWT 1 "a@b.c" "user" 0

def fxBlockedToken : Token := createJWT 2 "b@b.c" "user" 0

def fxDevice : DeviceInfo := extractDeviceInfo (some "Chrome Windows") {} 0

def fxSession : SessionInfo :=
  { session_id := 1, user_id := 1, session_token := fxToken, device_info := some fxDevice,
    ip_address := none, user_agent := none, login_method := "email",
    created_at := 0, updated_at := 0, expires_at := 604800, is_active := true,
    last_activity := 0 }

def fxBlockedSession : SessionInfo :=
  { fxSession with session_id := 2, user_id := 2, session_token := fxBlockedToken }

def fxStore : Store := { users := [fxUser], sessions := [fxSession] }

def fxStoreBlocked : Store :=
  { users := [fxUser, fxBlockedUser], sessions := [fxSession, fxBlockedSession] }

def fxStoreNoSessions : Store := { users := [fxUser], sessions := [] }

def fxEmptyStore : Store := { users := [], sessions := [] }

/-- `fxStore` after `/logout` has deactivated `fxToken`'s session. -/
def fxStoreLoggedOut : Store := (invalidateSession fxToken 50 false fxStore).store

/-- A correctly signed token whose expiry has passed at time 10. -/
def fxExpiredToken : Token :=
  .signed { userId := 1, email := "a@b.c", utype := "user", iat := 0, exp := 5 } true

/-- The browser tokens of `extractDeviceInfo`; used to state its defaults. -/
def browserTokenMatched (ua : String) : Bool :=
  includesToken ua "Chrome" || includesToken ua "Firefox" || includesToken ua "Safari" ||
    includesToken ua "Edge" || includesToken ua "Opera"

/-- The OS tokens of `extractDeviceInfo`. -/
def osTokenMatched (ua : String) : Bool :=
  includesToken ua "Windows" || includesToken ua "Mac" || includesToken ua "Linux" ||
    includesToken ua "Android" || includesToken ua "iPhone" || includesToken ua "iPad"

/-- The mobile regex `Mobile|Android|iPhone|iPad` of `extractDeviceInfo`. -/
def mobileTokenMatched (ua : String) : Bool :=
  includesToken ua "Mobile" || includesToken ua "Android" ||
    includesToken ua "iPhone" || includesToken ua "iPad"

/-! ### Helper lemmas -/

theorem mem_insertByActivity {y x : SessionInfo} {l : List SessionInfo} :
    y ∈ insertByActivity x l ↔ y = x ∨ y ∈ l := by
  induction l with
  | nil => simp [insertByActivity]
  | cons a as ih =>
    simp only [insertByActivity]
    split
    · simp
    · simp [ih]
      tauto

theorem mem_sortByActivityDesc {y : SessionInfo} {l : List SessionInfo} :
    y ∈ sortByActivityDesc l ↔ y ∈ l := by
  induction l with
  | nil => simp [sortByActivityDesc]
  | cons a as ih => simp [sortByActivityDesc, mem_insertByActivity, ih]

theorem length_insertByActivity (x : SessionInfo) (l : List SessionInfo) :
    (insertByActivity x l).length = l.length + 1 := by
  induction l with
  | nil => simp [insertByActivity]
  | cons a as ih =>
    simp only [insertByActivity]
    split
    · simp
    · simp [ih]

theorem length_sortByActivityDesc (l : List SessionInfo) :
    (sortByActivityDesc l).length = l.length := by
  induction l with
  | nil => rfl
  | cons a as ih => simp [sortByActivityDesc, length_insertByActivity, ih]

/-! ### C3 — token verification error kinds -/

/-- C3 counterexample: the underlying jose failure kinds do differ (expired vs
invalid), but `verifyJWT` — the verification function callers see — returns the
one indistinguishable error for a correctly signed expired token and for a
structurally corrupt token, so it does not fail with a distinct `Expired`
kind. -/
theorem verifyJWT_counterexample :
    joseJwtVerify fxExpiredToken 10 = .error .expired ∧
    joseJwtVerify (Token.malformed "garbage") 10 = .error .invalid ∧
    verifyJWT fxExpiredToken 10 = .error "Invalid or expired token" ∧
    verifyJWT (Token.malformed "garbage") 10 = .error "Invalid or expired token" ∧
    verifyJWT fxExpiredToken 10 = verifyJWT (Token.malformed "garbage") 10 := by
  decide

/-- C3 (amended): `verifyJWT` collapses every failure — signature mismatch,
structural corruption, and expiry alike — into the single error
`Invalid or expired token`, and on success the payload's expiry is strictly in
the future, so the separate `Token has expired` branch of `handleValidate` is
unreachable through it. -/
theorem verifyJWT_collapses_failures (t : Token) (now : Time) :
    ((verifyJWT t now).isOk = false →
      verifyJWT t now = .error "Invalid or expired token") ∧
    (∀ p, verifyJWT t now = .ok p → now < p.exp) := by
  have hcase : verifyJWT t now = .error "Invalid or expired token" ∨
      ∃ p, verifyJWT t now = .ok p ∧ now < p.exp := by
    unfold verifyJWT joseJwtVerify
    cases t with
    | malformed raw => exact Or.inl rfl
    | signed p sigOk =>
      cases sigOk with
      | false => exact Or.inl rfl
      | true =>
        by_cases h : p.exp ≤ now
        · simp [h]
        · refine Or.inr ⟨p, ?_, not_le.mp h⟩
          simp [h]
  rcases hcase with h | ⟨p, hp, hlt⟩
  · exact ⟨fun _ => h, fun q hq => by rw [h] at hq; cases hq⟩
  · refine ⟨fun hk => ?_, fun q hq => ?_⟩
    · rw [hp] at hk
      exact Bool.noConfusion hk
    · rw [hp] at hq
      cases hq
      exact hlt

/-- Witness for C3's amended theorem at concrete tokens. -/
theorem verifyJWT_collapses_failures_witness :
    ((verifyJWT fxExpiredToken 10).isOk = false ∧
      verifyJWT fxExpiredToken 10 = .error "Invalid or expired token") ∧
    (verifyJWT (createJWT 1 "a@b.c" "user" 10) 11 = .ok
        { userId := 1, email := "a@b.c", utype := "user", iat := 10, exp := 604810 } ∧
      (11 : Time) < 604810) :=
  ⟨⟨by decide, (verifyJWT_collapses_failures fxExpiredToken 10).1 (by decide)⟩,
    ⟨by decide, (verifyJWT_collapses_failures (createJWT 1 "a@b.c" "user" 10) 11).2
      { userId := 1, email := "a@b.c", utype := "user", iat := 10, exp := 604810 }
      (by decide)⟩⟩

/-! ### C9 — device fingerprint extractor -/

/-- C9 counterexample: on a user agent with no known token (and on a missing
one) the device-class field defaults to `Desktop`, not `Unknown` as claimed;
browser and OS do default to `Unknown`. -/
theorem extractDeviceInfo_counterexample :
    (extractDeviceInfo none {} 0).device = some "Desktop" ∧
    (extractDeviceInfo (some "curl/7.79.1") {} 0).browser = some "Unknown" ∧
    (extractDeviceInfo (some "curl/7.79.1") {} 0).os = some "Unknown" ∧
    (extractDeviceInfo (some "curl/7.79.1") {} 0).device = some "Desktop" ∧
    (extractDeviceInfo (some "curl/7.79.1") {} 0).device ≠ some "Unknown" ∧
    (extractDeviceInfo none {} 0).device ≠ some "Unknown" := by
  decide

/-- C9 (amended): the extractor is total — for every user agent (including a
missing one) it populates browser, OS, device class, mobile flag and timestamp
by ordered substring matching over the fixed token sets; browser and OS default
to `Unknown` when no known token matches, while the device class is always
`Mobile` or `Desktop`, defaulting to `Desktop` (never `Unknown`). -/
theorem extractDeviceInfo_total_defaults (ua : Option String) (now : Time) :
    ((extractDeviceInfo ua {} now).browser.isSome = true ∧
      (extractDeviceInfo ua {} now).os.isSome = true ∧
      (extractDeviceInfo ua {} now).device.isSome = true ∧
      (extractDeviceInfo ua {} now).mobile.isSome = true ∧
      (extractDeviceInfo ua {} now).timestamp = some now) ∧
    ((extractDeviceInfo ua {} now).device = some "Mobile" ∨
      (extractDeviceInfo ua {} now).device = some "Desktop") ∧
    (ua = none →
      (extractDeviceInfo ua {} now).browser = some "Unknown" ∧
      (extractDeviceInfo ua {} now).os = some "Unknown" ∧
      (extractDeviceInfo ua {} now).device = some "Desktop") ∧
    (∀ u, ua = some u → browserTokenMatched u = false →
      (extractDeviceInfo ua {} now).browser = some "Unknown") ∧
    (∀ u, ua = some u → osTokenMatched u = false →
      (extractDeviceInfo ua {} now).os = some "Unknown") ∧
    (∀ u, ua = some u → mobileTokenMatched u = false →
      (extractDeviceInfo ua {} now).device = some "Desktop") := by
  cases ua with
  | none => simp [extractDeviceInfo]
  | some u =>
    refine ⟨by simp [extractDeviceInfo], ?_, by simp, ?_, ?_, ?_⟩
    · by_cases hm : mobileTokenMatched u = true
      · simp only [extractDeviceInfo]
        simp only [mobileTokenMatched, Bool.or_eq_true] at hm
        rcases hm with ((h | h) | h) | h <;> simp [h]
      · simp only [Bool.not_eq_true] at hm
        simp only [mobileTokenMatched, Bool.or_eq_false_iff] at hm
        obtain ⟨⟨⟨h1, h2⟩, h3⟩, h4⟩ := hm
        simp [extractDeviceInfo, h1, h2, h3, h4]
    · intro v hv hb
      cases hv
      simp only [browserTokenMatched, Bool.or_eq_false_iff] at hb
      obtain ⟨⟨⟨⟨b1, b2⟩, b3⟩, b4⟩, b5⟩ := hb
      simp [extractDeviceInfo, b1, b2, b3, b4, b5]
    · intro v hv ho
      cases hv
      simp only [osTokenMatched, Bool.or_eq_false_iff] at ho
      obtain ⟨⟨⟨⟨⟨o1, o2⟩, o3⟩, o4⟩, o5⟩, o6⟩ := ho
      simp [extractDeviceInfo, o1, o2, o3, o4, o5, o6]
    · intro v hv hm
      cases hv
      simp only [mobileTokenMatched, Bool.or_eq_false_iff] at hm
      obtain ⟨⟨⟨h1, h2⟩, h3⟩, h4⟩ := hm
      simp [extractDeviceInfo, h1, h2, h3, h4]

/-- Witness for C9's amended theorem on a tokenless user agent. -/
theorem extractDeviceInfo_total_defaults_witness :
    (extractDeviceInfo (some "curl/7.79.1") {} 3).browser = some "Unknown" ∧
    (extractDeviceInfo (some "curl/7.79.1") {} 3).os = some "Unknown" ∧
    (extractDeviceInfo (some "curl/7.79.1") {} 3).device = some "Desktop" :=
  ⟨(extractDeviceInfo_total_defaults (some "curl/7.79.1") 3).2.2.2.1 "curl/7.79.1" rfl
      (by decide),
    (extractDeviceInfo_total_defaults (some "curl/7.79.1") 3).2.2.2.2.1 "curl/7.79.1" rfl
      (by decide),
    (extractDeviceInfo_total_defaults (some "curl/7.79.1") 3).2.2.2.2.2 "curl/7.79.1" rfl
      (by decide)⟩

/-! ### C4 — conflict detection -/

/-- C4: `hasConflict` is true iff some active (is_active and unexpired) session
of the user stores a device profile differing from the candidate in at least
one of (browser, os, device); `shouldPrompt` always mirrors `hasConflict`; in
particular an all-same-device session set reports no conflict. -/
theorem checkSessionConflict_spec (userId : Nat) (cand : DeviceInfo) (now : Time)
    (s : Store) :
    ((checkSessionConflict userId cand now false s).hasConflict = true ↔
      ∃ r ∈ s.sessions, activeUserRow userId now r = true ∧
        deviceDiffers r.device_info cand = true) ∧
    (checkSessionConflict userId cand now false s).shouldPrompt =
      (checkSessionConflict userId cand now false s).hasConflict ∧
    ((∀ r ∈ s.sessions, activeUserRow userId now r = true →
        deviceDiffers r.device_info cand = false) →
      (checkSessionConflict userId cand now false s).hasConflict = false) := by
  have hmem : ∀ r : SessionInfo,
      r ∈ sortByActivityDesc (s.sessions.filter (activeUserRow userId now)) ↔
        r ∈ s.sessions ∧ activeUserRow userId now r = true := by
    intro r
    rw [mem_sortByActivityDesc, List.mem_filter]
  by_cases hlen :
      (sortByActivityDesc (s.sessions.filter (activeUserRow userId now))).length = 0
  · have hnil : sortByActivityDesc (s.sessions.filter (activeUserRow userId now)) = [] :=
      List.eq_nil_of_length_eq_zero hlen
    have hno : ¬ ∃ r ∈ s.sessions, activeUserRow userId now r = true ∧
        deviceDiffers r.device_info cand = true := by
      rintro ⟨r, hr, hact, _⟩
      have : r ∈ sortByActivityDesc (s.sessions.filter (activeUserRow userId now)) :=
        (hmem r).mpr ⟨hr, hact⟩
      rw [hnil] at this
      cases this
    simp [checkSessionConflict, hlen, hno]
  · have hiff : (checkSessionConflict userId cand now false s).hasConflict = true ↔
        ∃ r ∈ s.sessions, activeUserRow userId now r = true ∧
          deviceDiffers r.device_info cand = true := by
      simp only [checkSessionConflict, if_neg hlen]
      simp only [Bool.false_eq_true, if_false, gt_iff_lt, decide_eq_true_eq]
      rw [← List.countP_eq_length_filter, List.countP_pos_iff]
      constructor
      · rintro ⟨r, hr, hd⟩
        obtain ⟨hr1, hr2⟩ := (hmem r).mp hr
        exact ⟨r, hr1, hr2, hd⟩
      · rintro ⟨r, hr, hact, hd⟩
        exact ⟨r, (hmem r).mpr ⟨hr, hact⟩, hd⟩
    refine ⟨hiff, ?_, ?_⟩
    · simp only [checkSessionConflict, if_neg hlen]
      simp only [Bool.false_eq_true, if_false, Bool.and_self]
    · intro hall
      cases hc : (checkSessionConflict userId cand now false s).hasConflict
      · rfl
      · obtain ⟨r, hr, hact, hd⟩ := hiff.mp hc
        rw [hall r hr hact] at hd
        cases hd

/-- Witness for C4 on a concrete store: one active same-device session, so no
conflict; and the iff is inhabited on both sides by deciding the instance. -/
theorem checkSessionConflict_spec_witness :
    ((checkSessionConflict 1 fxDevice 100 false fxStore).hasConflict = true ↔
      ∃ r ∈ fxStore.sessions, activeUserRow 1 100 r = true ∧
        deviceDiffers r.device_info fxDevice = true) ∧
    (checkSessionConflict 1 fxDevice 100 false fxStore).shouldPrompt =
      (checkSessionConflict 1 fxDevice 100 false fxStore).hasConflict ∧
    (checkSessionConflict 1 fxDevice 100 false fxStore).hasConflict = false :=
  ⟨(checkSessionConflict_spec 1 fxDevice 100 fxStore).1,
    (checkSessionConflict_spec 1 fxDevice 100 fxStore).2.1,
    (checkSessionConflict_spec 1 fxDevice 100 fxStore).2.2 (by decide)⟩

/-! ### C5 — invalidateOthers -/

/-- C5: with an `exceptToken` given, `invalidateOtherSessions` succeeds, never
touches rows holding the excepted token, leaves no other active session of the
user behind, spares other users' rows, and reports the number of rows it
deactivated. -/
theorem invalidateOtherSessions_spec (userId : Nat) (tok : Token) (now : Time)
    (s : Store) :
    (invalidateOtherSessions userId (some tok) now false s).success = true ∧
    (invalidateOtherSessions userId (some tok) now false s).invalidatedCount =
      (s.sessions.filter (fun r =>
        decide (r.user_id = userId ∧ r.is_active = true ∧ r.session_token ≠ tok))).length ∧
    (∀ r ∈ s.sessions, r.session_token = tok →
      r ∈ (invalidateOtherSessions userId (some tok) now false s).store.sessions) ∧
    (∀ r ∈ (invalidateOtherSessions userId (some tok) now false s).store.sessions,
      r.user_id = userId → r.is_active = true → r.session_token = tok) ∧
    (∀ r ∈ s.sessions, r.user_id ≠ userId →
      r ∈ (invalidateOtherSessions userId (some tok) now false s).store.sessions) := by
  have hpred : ∀ r : SessionInfo, otherActiveRow userId (some tok) r =
      decide (r.user_id = userId ∧ r.is_active = true ∧ r.session_token ≠ tok) := by
    intro r
    by_cases h1 : r.user_id = userId <;> by_cases h2 : r.is_active = true <;>
      by_cases h3 : r.session_token = tok <;> simp [otherActiveRow, h1, h2, h3]
  refine ⟨rfl, ?_, ?_, ?_, ?_⟩
  · simp only [invalidateOtherSessions, Bool.false_eq_true, if_false]
    rw [show otherActiveRow userId (some tok) = (fun r =>
      decide (r.user_id = userId ∧ r.is_active = true ∧ r.session_token ≠ tok)) from
      funext hpred]
  · intro r hr htk
    have hfr : otherActiveRow userId (some tok) r = false := by
      simp [otherActiveRow, htk]
    simp only [invalidateOtherSessions, Bool.false_eq_true, if_false]
    exact List.mem_map.mpr ⟨r, hr, by simp [hfr]⟩
  · intro r hr huid hact
    simp only [invalidateOtherSessions, Bool.false_eq_true, if_false] at hr
    obtain ⟨x, hx, hfx⟩ := List.mem_map.mp hr
    by_cases hp : otherActiveRow userId (some tok) x = true
    · rw [if_pos hp] at hfx
      rw [← hfx] at hact
      cases hact
    · rw [if_neg hp] at hfx
      subst hfx
      simp only [hpred, decide_eq_true_eq] at hp
      push_neg at hp
      exact hp huid hact
  · intro r hr huid
    have hfr : otherActiveRow userId (some tok) r = false := by
      simp [otherActiveRow, huid]
    simp only [invalidateOtherSessions, Bool.false_eq_true, if_false]
    exact List.mem_map.mpr ⟨r, hr, by simp [hfr]⟩

/-- Witness for C5 on a concrete three-row store (the kept session, one other
active session of the same user, one session of another user). -/
theorem invalidateOtherSessions_spec_witness :
    (invalidateOtherSessions 1 (some fxToken) 100 false fxStoreBlocked).success = true ∧
    (invalidateOtherSessions 1 (some fxToken) 100 false fxStoreBlocked).invalidatedCount =
      (fxStoreBlocked.sessions.filter (fun r =>
        decide (r.user_id = 1 ∧ r.is_active = true ∧ r.session_token ≠ fxToken))).length ∧
    fxSession ∈
      (invalidateOtherSessions 1 (some fxToken) 100 false fxStoreBlocked).store.sessions ∧
    fxBlockedSession ∈
      (invalidateOtherSessions 1 (some fxToken) 100 false fxStoreBlocked).store.sessions :=
  ⟨(invalidateOtherSessions_spec 1 fxToken 100 fxStoreBlocked).1,
    (invalidateOtherSessions_spec 1 fxToken 100 fxStoreBlocked).2.1,
    (invalidateOtherSessions_spec 1 fxToken 100 fxStoreBlocked).2.2.1 fxSession
      (by decide) (by decide),
    (invalidateOtherSessions_spec 1 fxToken 100 fxStoreBlocked).2.2.2.2 fxBlockedSession
      (by decide) (by decide)⟩

/-! ### C6 — idempotent invalidation -/

/-- When every row holding the token is already inactive, the invalidation
update leaves the active-row filter of the session list unchanged. -/
theorem filter_active_map_invalidate (tok : Token) (now : Time) (uid : Nat) (t2 : Time)
    (l : List SessionInfo) (h : ∀ r ∈ l, r.session_token = tok → r.is_active = false) :
    (l.map (fun r => if r.session_token = tok then
        { r with is_active := false, updated_at := now }
      else r)).filter (activeUserRow uid t2) =
    l.filter (activeUserRow uid t2) := by
  induction l with
  | nil => rfl
  | cons r t ih =>
    simp only [List.map_cons, List.filter_cons]
    by_cases hr : r.session_token = tok
    · have hina : r.is_active = false := h r (by simp) hr
      have h1 : activeUserRow uid t2
          { r with is_active := false, updated_at := now } = false := by
        simp [activeUserRow]
      have h2 : activeUserRow uid t2 r = false := by
        simp [activeUserRow, hina]
      rw [if_pos hr, h1, h2]
      simp only [Bool.false_eq_true, if_false]
      exact ih (fun x hx hxt => h x (by simp [hx]) hxt)
    · rw [if_neg hr]
      by_cases ha : activeUserRow uid t2 r = true
      · rw [ha]
        simp only [if_true]
        rw [ih (fun x hx hxt => h x (by simp [hx]) hxt)]
      · simp only [Bool.not_eq_true] at ha
        rw [ha]
        simp only [Bool.false_eq_true, if_false]
        exact ih (fun x hx hxt => h x (by simp [hx]) hxt)

/-- C6: invalidation is idempotent — invalidating a token whose session rows
are all already inactive (including the no-row case, vacuously) succeeds and
leaves every user's active-session list unchanged, and running the update twice
at the same instant produces the same store as running it once. -/
theorem invalidateSession_idempotent (tok : Token) (now : Time) (s : Store) :
    (invalidateSession tok now false s).success = true ∧
    ((∀ r ∈ s.sessions, r.session_token = tok → r.is_active = false) →
      ∀ uid t2, activeSessionsFor (invalidateSession tok now false s).store uid t2 =
        activeSessionsFor s uid t2) ∧
    (invalidateSession tok now false (invalidateSession tok now false s).store).store =
      (invalidateSession tok now false s).store := by
  refine ⟨rfl, ?_, ?_⟩
  · intro h uid t2
    simp only [invalidateSession, Bool.false_eq_true, if_false, activeSessionsFor]
    exact filter_active_map_invalidate tok now uid t2 s.sessions h
  · simp only [invalidateSession, Bool.false_eq_true, if_false]
    congr 1
    rw [List.map_map]
    apply List.map_congr_left
    intro r _
    by_cases hr : r.session_token = tok <;> simp [Function.comp, hr]

/-- Witness for C6 on a store whose only row for the token is inactive. -/
theorem invalidateSession_idempotent_witness :
    (invalidateSession fxToken 100 false fxStoreLoggedOut).success = true ∧
    activeSessionsFor (invalidateSession fxToken 100 false fxStoreLoggedOut).store 1 100 =
      activeSessionsFor fxStoreLoggedOut 1 100 ∧
    (invalidateSession fxToken 100 false
        (invalidateSession fxToken 100 false fxStoreLoggedOut).store).store =
      (invalidateSession fxToken 100 false fxStoreLoggedOut).store :=
  ⟨(invalidateSession_idempotent fxToken 100 fxStoreLoggedOut).1,
    (invalidateSession_idempotent fxToken 100 fxStoreLoggedOut).2.1 (by decide) 1 100,
    (invalidateSession_idempotent fxToken 100 fxStoreLoggedOut).2.2⟩

/-! ### C7 — logout never fails externally -/

/-- C7: every `/logout` request — body-parse throw, missing or invalid token,
failed server-side invalidation included — returns HTTP 200 with a success
body and past-dated clearing Set-Cookie entries for the session and user
cookies. -/
theorem handleLogout_always_succeeds (redirectUrl : String) (meta : RequestMeta)
    (now : Time) (f : Faults) (s : Store) :
    (handleLogout redirectUrl meta now f s).status = 200 ∧
    (handleLogout redirectUrl meta now f s).body.success = true ∧
    clearedCookie "exam_revise_session" none ∈
      (handleLogout redirectUrl meta now f s).cookies ∧
    clearedCookie "user" none ∈ (handleLogout redirectUrl meta now f s).cookies ∧
    (∀ c ∈ (handleLogout redirectUrl meta now f s).cookies, c.pastDated = true) := by
  by_cases hb : f.body
  · refine ⟨by simp [handleLogout, hb], by simp [handleLogout, hb], ?_, ?_, ?_⟩
    · simp [handleLogout, hb]
    · simp [handleLogout, hb]
    · intro c hc
      simp [handleLogout, hb] at hc
      rcases hc with h | h | h <;> simp [h, clearedCookie]
  · refine ⟨by simp [handleLogout, hb], by simp [handleLogout, hb], ?_, ?_, ?_⟩
    · simp [handleLogout, hb]
    · simp [handleLogout, hb]
    · intro c hc
      simp only [handleLogout, hb, Bool.false_eq_true, if_false] at hc
      obtain ⟨l, hl, hcl⟩ := List.mem_flatten.mp hc
      obtain ⟨n, _, rfl⟩ := List.mem_map.mp hl
      simp only [List.mem_cons, List.not_mem_nil, or_false] at hcl
      rcases hcl with rfl | rfl | rfl <;> rfl

/-! ### C2 — /validate failure handling -/

/-- Helper: a successful `verifyJWT` implies the payload expiry is still in the
future (jose has already enforced it). -/
theorem verifyJWT_ok_lt (t : Token) (now : Time) (p : TokenPayload)
    (h : verifyJWT t now = .ok p) : now < p.exp := by
  unfold verifyJWT joseJwtVerify at h
  cases t with
  | malformed raw => cases h
  | signed q sig =>
    cases sig with
    | false => cases h
    | true =>
      by_cases he : q.exp ≤ now
      · simp [he] at h
      · simp [he] at h
        cases h
        exact not_le.mp he

/-- Helper: the best-effort activity touch never changes the users table. -/
theorem updateSessionActivity_users (tok : Token) (now : Time) (b : Bool) (s : Store) :
    (updateSessionActivity tok now b s).store.users = s.users := by
  cases b <;> simp [updateSessionActivity]

/-- C2: on a `/validate` request carrying a token, each expected failure gets
its assigned status: a token that does not verify answers 401; a verified token
whose session-store lookup fails — in particular a still-signed token whose
session row has been invalidated, since the lookup filters on `is_active` —
answers 401; a verified token with a live session whose user lookup finds no
row answers 401; and when the looked-up user is blocked the answer is 403 with
`blocked:true` — and 403 arises only in that case.  Every such response has
`valid:false` and `requiresAuth:true`, and the handler never answers 500. -/
theorem handleValidate_failure_spec (meta : RequestMeta) (now : Time) (f : Faults)
    (s : Store) (t : Token)
    (htok : tokenOf meta = some t) :
    (handleValidate meta now f s).status ≠ 500 ∧
    ((verifyJWT t now).isOk = false →
      (handleValidate meta now f s).status = 401 ∧
      (handleValidate meta now f s).body.valid = false ∧
      (handleValidate meta now f s).body.requiresAuth = true) ∧
    (∀ p, verifyJWT t now = .ok p →
      (validateSession t now f.sessionLookup s).valid = false →
      (handleValidate meta now f s).status = 401 ∧
      (handleValidate meta now f s).body.valid = false ∧
      (handleValidate meta now f s).body.requiresAuth = true) ∧
    (∀ p, verifyJWT t now = .ok p →
      (validateSession t now f.sessionLookup s).valid = true →
      findUserById p.userId p.email f.userLookup s.users = none →
      (handleValidate meta now f s).status = 401 ∧
      (handleValidate meta now f s).body.valid = false ∧
      (handleValidate meta now f s).body.requiresAuth = true) ∧
    (∀ p u, verifyJWT t now = .ok p →
      (validateSession t now f.sessionLookup s).valid = true →
      findUserById p.userId p.email f.userLookup s.users = some u →
      u.is_blocked = true →
      (handleValidate meta now f s).status = 403 ∧
      (handleValidate meta now f s).body.valid = false ∧
      (handleValidate meta now f s).body.requiresAuth = true ∧
      (handleValidate meta now f s).body.blocked = true) ∧
    ((handleValidate meta now f s).status = 403 →
      ∃ p u, verifyJWT t now = .ok p ∧
        (validateSession t now f.sessionLookup s).valid = true ∧
        findUserById p.userId p.email f.userLookup s.users = some u ∧
        u.is_blocked = true) := by
  cases hv : verifyJWT t now with
  | error e =>
    have hst : (handleValidate meta now f s).status = 401 := by
      simp [handleValidate, htok, hv]
    refine ⟨?_, ?_, ?_, ?_, ?_, ?_⟩
    · rw [hst]; decide
    · intro _
      refine ⟨hst, ?_, ?_⟩ <;> simp [handleValidate, htok, hv]
    · intro p hp _
      cases hp
    · intro p hp _ _
      cases hp
    · intro p u hp _ _ _
      cases hp
    · intro h403
      rw [hst] at h403
      exact absurd h403 (by decide)
  | ok p =>
    have hlt := verifyJWT_ok_lt t now p hv
    have hexp : ¬ (p.exp < now) := Nat.lt_asymm hlt
    cases hsv : (validateSession t now f.sessionLookup s).valid with
    | false =>
      have hst : (handleValidate meta now f s).status = 401 := by
        simp [handleValidate, htok, hv, hexp, hsv]
      refine ⟨?_, ?_, ?_, ?_, ?_, ?_⟩
      · rw [hst]; decide
      · intro hk
        exact Bool.noConfusion hk
      · intro q hq _
        cases hq
        refine ⟨hst, ?_, ?_⟩ <;> simp [handleValidate, htok, hv, hexp, hsv]
      · intro q hq hval
        cases hval
      · intro q u hq hval
        cases hval
      · intro h403
        rw [hst] at h403
        exact absurd h403 (by decide)
    | true =>
      cases hfind : findUserById p.userId p.email f.userLookup s.users with
      | none =>
        have hst : (handleValidate meta now f s).status = 401 := by
          simp [handleValidate, htok, hv, hexp, hsv, updateSessionActivity_users, hfind]
        refine ⟨?_, ?_, ?_, ?_, ?_, ?_⟩
        · rw [hst]; decide
        · intro hk
          exact Bool.noConfusion hk
        · intro q hq hval
          cases hval
        · intro q hq _ _
          cases hq
          refine ⟨hst, ?_, ?_⟩ <;>
            simp [handleValidate, htok, hv, hexp, hsv, updateSessionActivity_users, hfind]
        · intro q u hq _ hfq _
          cases hq
          rw [hfind] at hfq
          cases hfq
        · intro h403
          rw [hst] at h403
          exact absurd h403 (by decide)
      | some u =>
        cases hbl : u.is_blocked with
        | false =>
          have hst : (handleValidate meta now f s).status = 200 := by
            simp [handleValidate, htok, hv, hexp, hsv, updateSessionActivity_users,
              hfind, hbl]
          refine ⟨?_, ?_, ?_, ?_, ?_, ?_⟩
          · rw [hst]; decide
          · intro hk
            exact Bool.noConfusion hk
          · intro q hq hval
            cases hval
          · intro q hq _ hfq
            cases hq
            rw [hfind] at hfq
            cases hfq
          · intro q w hq _ hfq hwbl
            cases hq
            rw [hfind] at hfq
            cases hfq
            rw [hbl] at hwbl
            cases hwbl
          · intro h403
            rw [hst] at h403
            exact absurd h403 (by decide)
        | true =>
          have hred : (handleValidate meta now f s).status = 403 ∧
              (handleValidate meta now f s).body.valid = false ∧
              (handleValidate meta now f s).body.requiresAuth = true ∧
              (handleValidate meta now f s).body.blocked = true := by
            refine ⟨?_, ?_, ?_, ?_⟩ <;>
              simp [handleValidate, htok, hv, hexp, hsv, updateSessionActivity_users,
                hfind, hbl]
          refine ⟨?_, ?_, ?_, ?_, ?_, ?_⟩
          · rw [hred.1]; decide
          · intro hk
            exact Bool.noConfusion hk
          · intro q hq hval
            cases hval
          · intro q hq _ hfq
            cases hq
            rw [hfind] at hfq
            cases hfq
          · intro q w hq _ hfq _
            cases hq
            rw [hfind] at hfq
            cases hfq
            exact hred
          · intro _
            exact ⟨p, u, rfl, rfl, hfind, hbl⟩

/-- Witness for C2: the validate-after-logout scenario — `fxToken` still
verifies at time 100 but its session row was deactivated by `/logout`, so
`/validate` answers exactly 401 with `valid:false, requiresAuth:true`; and a
blocked user with a live session answers exactly 403 with `blocked:true`. -/
theorem handleValidate_failure_spec_witness :
    (handleValidate { authToken := some fxToken } 100 {} fxStoreLoggedOut).status = 401 ∧
    (handleValidate { authToken := some fxToken } 100 {} fxStoreLoggedOut).body.valid
        = false ∧
    (handleValidate { authToken := some fxToken } 100 {} fxStoreLoggedOut).body.requiresAuth
        = true ∧
    (handleValidate { authToken := some fxToken } 100 {} fxStoreLoggedOut).status ≠ 500 ∧
    (handleValidate { authToken := some fxBlockedToken } 100 {} fxStoreBlocked).status
        = 403 ∧
    (handleValidate { authToken := some fxBlockedToken } 100 {} fxStoreBlocked).body.blocked
        = true := by
  have h1 := handleValidate_failure_spec { authToken := some fxToken } 100 {}
    fxStoreLoggedOut fxToken (by decide)
  have h2 := handleValidate_failure_spec { authToken := some fxBlockedToken } 100 {}
    fxStoreBlocked fxBlockedToken (by decide)
  have ha := h1.2.2.1
    { userId := 1, email := "a@b.c", utype := "user", iat := 0, exp := 604800 }
    (by decide) (by decide)
  have hb := h2.2.2.2.2.1
    { userId := 2, email := "b@b.c", utype := "user", iat := 0, exp := 604800 }
    fxBlockedUser (by decide) (by decide) (by decide) rfl
  exact ⟨ha.1, ha.2.1, ha.2.2, h1.1, hb.1, hb.2.2.2⟩

/-! ### Helpers for the login/oauth session phase -/

/-- Helper: a fault-free `createSession` reports success. -/
theorem createSession_success (userId : Nat) (tok : Token) (dev : DeviceInfo)
    (ip ua : Option String) (m : String) (now : Time) (st : Store) :
    (createSession userId tok dev ip ua m now false st).success = true := rfl

/-- Helper: a fault-free `createSession` adds an active session row carrying
the given token for the given user. -/
theorem createSession_mem (userId : Nat) (tok : Token) (dev : DeviceInfo)
    (ip ua : Option String) (m : String) (now : Time) (st : Store) :
    ∃ row ∈ (createSession userId tok dev ip ua m now false st).store.sessions,
      row.session_token = tok ∧ row.is_active = true ∧ row.user_id = userId := by
  simp only [createSession, Bool.false_eq_true, if_false]
  refine ⟨{ session_id := st.sessions.length + 1, user_id := userId, session_token := tok,
            device_info := some dev, ip_address := ip, user_agent := ua, login_method := m,
            created_at := now, updated_at := now, expires_at := now + 7 * 24 * 60 * 60,
            is_active := true, last_activity := now }, ?_, rfl, rfl, rfl⟩
  simp

/-- Helper: after `invalidateOtherSessions` with no excepted token, the user
has no active session left, at any probe time. -/
theorem filter_active_invOthers (uid : Nat) (now t2 : Time) (s : Store) :
    ((invalidateOtherSessions uid none now false s).store.sessions).filter
      (activeUserRow uid t2) = [] := by
  simp only [invalidateOtherSessions, Bool.false_eq_true, if_false]
  induction s.sessions with
  | nil => rfl
  | cons r t ih =>
    simp only [List.map_cons, List.filter_cons]
    by_cases hp : otherActiveRow uid none r = true
    · have h1 : activeUserRow uid t2
          { r with is_active := false, updated_at := now } = false := by
        simp [activeUserRow]
      rw [if_pos hp, h1]
      simp only [Bool.false_eq_true, if_false]
      exact ih
    · have h2 : activeUserRow uid t2 r = false := by
        by_cases huid : r.user_id = uid
        · by_cases hact : r.is_active = true
          · exact absurd (by simp [otherActiveRow, huid, hact]) hp
          · have hact2 : r.is_active = false := by simpa using hact
            simp [activeUserRow, hact2]
        · simp [activeUserRow, huid]
      rw [if_neg hp, h2]
      simp only [Bool.false_eq_true, if_false]
      exact ih

/-- Helper: forced invalidation followed by a fresh session create leaves
exactly one active session row for the user — the new row with the new token
(session-list form). -/
theorem filter_token_force_create (uid : Nat) (tok : Token) (dev : DeviceInfo)
    (ip ua : Option String) (m : String) (now : Time) (s : Store) :
    (((createSession uid tok dev ip ua m now false
        (invalidateOtherSessions uid none now false s).store).store.sessions).filter
      (activeUserRow uid now)).map (fun r => r.session_token) = [tok] := by
  simp only [createSession, Bool.false_eq_true, if_false]
  rw [List.filter_append, filter_active_invOthers]
  have hrow : activeUserRow uid now
      { session_id :=
          (invalidateOtherSessions uid none now false s).store.sessions.length + 1
        user_id := uid
        session_token := tok
        device_info := some dev
        ip_address := ip
        user_agent := ua
        login_method := m
        created_at := now
        updated_at := now
        expires_at := now + 7 * 24 * 60 * 60
        is_active := true
        last_activity := now } = true := by
    have hlt : now < now + 7 * 24 * 60 * 60 := Nat.lt_add_of_pos_right (by norm_num)
    simp [activeUserRow, hlt]
  simp [hrow]

/-- Helper: `filter_token_force_create` phrased through `activeSessionsFor`. -/
theorem activeSessionsFor_force_create (uid : Nat) (tok : Token) (dev : DeviceInfo)
    (ip ua : Option String) (m : String) (now : Time) (s : Store) :
    (activeSessionsFor (createSession uid tok dev ip ua m now false
        (invalidateOtherSessions uid none now false s).store).store uid now).map
      (fun r => r.session_token) = [tok] :=
  filter_token_force_create uid tok dev ip ua m now s

/-! ### C1 — forced login -/

/-- C1: on a forced login (email/password or OAuth) for an existing,
non-blocked user with accepted credentials, the conflict prompt never fires
(the result does not depend on the conflict query at all and is never 409),
every other active session is invalidated before the new row is created, and
the request answers 200 with exactly one active session left for the user,
holding exactly the newly issued token. -/
theorem forceLogin_single_active_session
    (req : LoginRequest) (meta : RequestMeta) (now : Time) (f : Faults) (s : Store)
    (u : User) (pw : String)
    (hforce : req.forceLogin = true)
    (hb : f.body = false) (hio : f.invalidateOthers = false) (hcr : f.create = false)
    (he : req.email ≠ "") (hp : req.password ≠ "")
    (hfmt : emailFormatOk req.email = true)
    (hfind : findUserByEmail (strTrim (strToLower req.email)) f.userLookup s.users = some u)
    (hnb : u.is_blocked = false)
    (hpw : u.password = some pw)
    (hv : verifyPassword req.password pw = true)
    (oreq : OAuthRequest) (ometa : RequestMeta) (onow : Time) (og : Faults) (os2 : Store)
    (ext : ExtUser) (v : User)
    (oforce : oreq.forceLogin = true)
    (ob : og.body = false) (oio : og.invalidateOthers = false) (ocr : og.create = false)
    (oat : oreq.hasAccessToken = true)
    (ofind : findUserByEmail ext.email og.userLookup os2.users = some v)
    (onb : v.is_blocked = false) :
    ((handleLogin req meta now f s).status = 200 ∧
      (handleLogin req meta now f s).status ≠ 409 ∧
      (∃ ud msg, (handleLogin req meta now f s).body =
        .ok ud req.callbackUrl (createJWT u.user_id u.email u.utype now) msg) ∧
      (activeSessionsFor (handleLogin req meta now f s).store u.user_id now).map
        (fun r => r.session_token) = [createJWT u.user_id u.email u.utype now] ∧
      (∀ b, handleLogin req meta now { f with conflictQuery := b } s =
        handleLogin req meta now f s)) ∧
    ((handleOAuthProcess oreq (some ext) ometa onow og os2).status = 200 ∧
      (handleOAuthProcess oreq (some ext) ometa onow og os2).status ≠ 409 ∧
      (∃ un ue uun uf usn ut, (handleOAuthProcess oreq (some ext) ometa onow og os2).body =
        .ok un ue uun uf usn ut (createJWT v.user_id v.email v.utype onow) ∧ un = v.user_id) ∧
      (activeSessionsFor (handleOAuthProcess oreq (some ext) ometa onow og os2).store
          v.user_id onow).map (fun r => r.session_token) =
        [createJWT v.user_id v.email v.utype onow] ∧
      (∀ b, handleOAuthProcess oreq (some ext) ometa onow { og with conflictQuery := b } os2 =
        handleOAuthProcess oreq (some ext) ometa onow og os2)) := by
  constructor
  · by_cases hu : f.userUpdate = true
    · refine ⟨?_, ?_, ?_, ?_, ?_⟩ <;>
        simp [handleLogin, hb, he, hp, hfmt, hfind, hnb, hpw, hv, hforce, hio, hcr, hu,
          createSession_success, activeSessionsFor_force_create, activeSessionsFor,
          filter_token_force_create]
    · refine ⟨?_, ?_, ?_, ?_, ?_⟩ <;>
        simp [handleLogin, hb, he, hp, hfmt, hfind, hnb, hpw, hv, hforce, hio, hcr, hu,
          createSession_success, activeSessionsFor_force_create, activeSessionsFor,
          filter_token_force_create]
  · refine ⟨?_, ?_, ?_, ?_, ?_⟩ <;>
      simp [handleOAuthProcess, oauthSessionPhase, ob, oat, ofind, onb, oforce, oio, ocr,
        createSession_success, activeSessionsFor_force_create, activeSessionsFor,
        filter_token_force_create]

/-- Witness for C1: concrete forced logins (password and OAuth) onto a store
that already holds one active session; the conflict query is irrelevant and the
single remaining active session holds the new token. -/
theorem forceLogin_single_active_session_witness :
    (handleLogin { email := "a@b.c", password := "initialpassword", forceLogin := true }
        {} 100 {} fxStore).status = 200 ∧
    (activeSessionsFor (handleLogin
        { email := "a@b.c", password := "initialpassword", forceLogin := true }
        {} 100 {} fxStore).store 1 100).map (fun r => r.session_token) =
      [createJWT 1 "a@b.c" "user" 100] ∧
    handleLogin { email := "a@b.c", password := "initialpassword", forceLogin := true }
        {} 100 { ({} : Faults) with conflictQuery := true } fxStore =
      handleLogin { email := "a@b.c", password := "initialpassword", forceLogin := true }
        {} 100 {} fxStore ∧
    (handleOAuthProcess { forceLogin := true } (some { email := "a@b.c" })
        {} 100 {} fxStore).status = 200 ∧
    (activeSessionsFor (handleOAuthProcess { forceLogin := true }
        (some { email := "a@b.c" }) {} 100 {} fxStore).store 1 100).map
      (fun r => r.session_token) = [createJWT 1 "a@b.c" "user" 100] ∧
    handleOAuthProcess { forceLogin := true } (some { email := "a@b.c" })
        {} 100 { ({} : Faults) with conflictQuery := true } fxStore =
      handleOAuthProcess { forceLogin := true } (some { email := "a@b.c" })
        {} 100 {} fxStore := by
  have h := forceLogin_single_active_session
    { email := "a@b.c", password := "initialpassword", forceLogin := true } {} 100 {}
    fxStore fxUser fxHash rfl rfl rfl rfl (by decide) (by decide) (by decide) (by decide)
    rfl rfl (by decide)
    { forceLogin := true } {} 100 {} fxStore { email := "a@b.c" } fxUser
    rfl rfl rfl rfl rfl (by decide) rfl
  exact ⟨h.1.1, h.1.2.2.2.1, h.1.2.2.2.2 true, h.2.1, h.2.2.2.2.1, h.2.2.2.2.2 true⟩

/-! ### C10 — the conflict check fails open -/

/-- C10: a store error (or throw) inside `checkSessionConflict` yields
`hasConflict:false, shouldPrompt:false, activeSessions:[]`, and a login that
would otherwise prompt therefore proceeds: with the conflict query failing, a
valid non-forced login answers 200 (never 409) and still issues a token and
creates an active session row for the user. -/
theorem conflictCheck_fails_open
    (req : LoginRequest) (meta : RequestMeta) (now : Time) (f : Faults) (s : Store)
    (u : User) (pw : String)
    (hforce : req.forceLogin = false)
    (hb : f.body = false) (hcq : f.conflictQuery = true) (hcr : f.create = false)
    (he : req.email ≠ "") (hp : req.password ≠ "")
    (hfmt : emailFormatOk req.email = true)
    (hfind : findUserByEmail (strTrim (strToLower req.email)) f.userLookup s.users = some u)
    (hnb : u.is_blocked = false)
    (hpw : u.password = some pw)
    (hv : verifyPassword req.password pw = true) :
    (∀ uid cand t2 st, checkSessionConflict uid cand t2 true st =
      { hasConflict := false, activeSessions := [], shouldPrompt := false,
        message := none }) ∧
    (handleLogin req meta now f s).status = 200 ∧
    (handleLogin req meta now f s).status ≠ 409 ∧
    (∃ ud msg, (handleLogin req meta now f s).body =
      .ok ud req.callbackUrl (createJWT u.user_id u.email u.utype now) msg) ∧
    (∃ row ∈ (handleLogin req meta now f s).store.sessions,
      row.session_token = createJWT u.user_id u.email u.utype now ∧
      row.is_active = true ∧ row.user_id = u.user_id) := by
  have hsess : (handleLogin req meta now f s).store.sessions =
      (createSession u.user_id (createJWT u.user_id u.email u.utype now)
        (extractDeviceInfo meta.userAgent
          { req.deviceInfo with ipAddress := getIPAddress meta } now)
        (getIPAddress meta) meta.userAgent "email" now false s).store.sessions := by
    by_cases hu : f.userUpdate = true <;>
      simp [handleLogin, hb, he, hp, hfmt, hfind, hnb, hpw, hv, hforce, hcq, hcr, hu,
        checkSessionConflict, createSession_success]
  refine ⟨fun uid cand t2 st => rfl, ?_, ?_, ?_, ?_⟩
  · by_cases hu : f.userUpdate = true <;>
      simp [handleLogin, hb, he, hp, hfmt, hfind, hnb, hpw, hv, hforce, hcq, hcr, hu,
        checkSessionConflict, createSession_success]
  · by_cases hu : f.userUpdate = true <;>
      simp [handleLogin, hb, he, hp, hfmt, hfind, hnb, hpw, hv, hforce, hcq, hcr, hu,
        checkSessionConflict, createSession_success]
  · by_cases hu : f.userUpdate = true <;>
      simp [handleLogin, hb, he, hp, hfmt, hfind, hnb, hpw, hv, hforce, hcq, hcr, hu,
        checkSessionConflict, createSession_success]
  · rw [hsess]
    exact createSession_mem u.user_id (createJWT u.user_id u.email u.utype now)
      (extractDeviceInfo meta.userAgent
        { req.deviceInfo with ipAddress := getIPAddress meta } now)
      (getIPAddress meta) meta.userAgent "email" now s

/-- Witness for C10: the stored session is on a different device profile than
the candidate, so without the fault this login would 409; with the conflict
query failing it answers 200. -/
theorem conflictCheck_fails_open_witness :
    checkSessionConflict 1 fxDevice 100 true fxStore =
      { hasConflict := false, activeSessions := [], shouldPrompt := false,
        message := none } ∧
    (handleLogin { email := "a@b.c", password := "initialpassword" } {} 100
        { ({} : Faults) with conflictQuery := true } fxStore).status = 200 ∧
    (handleLogin { email := "a@b.c", password := "initialpassword" } {} 100
        { ({} : Faults) with conflictQuery := true } fxStore).status ≠ 409 ∧
    (handleLogin { email := "a@b.c", password := "initialpassword" } {} 100 {}
        fxStore).status = 409 := by
  have h := conflictCheck_fails_open
    { email := "a@b.c", password := "initialpassword" } {} 100
    { ({} : Faults) with conflictQuery := true } fxStore fxUser fxHash
    rfl rfl rfl rfl (by decide) (by decide) (by decide) (by decide) rfl rfl (by decide)
  exact ⟨h.1 1 fxDevice 100 fxStore, h.2.1, h.2.2.1, by decide⟩

/-! ### C8 — /check-session account-existence leak -/

/-- C8 counterexample: for the same well-formed email and request, a
non-existent account and an existing non-blocked account both answer 200, but
the response bodies are distinguishable — the non-existent case carries the
fixed `No existing sessions found` message and omits the `activeSessions` and
`currentDevice` keys that every existing-user response includes. -/
theorem handleCheckSession_counterexample :
    (handleCheckSession "a@b.c" {} {} 100 {} fxEmptyStore).status = 200 ∧
    (handleCheckSession "a@b.c" {} {} 100 {} fxStoreNoSessions).status = 200 ∧
    (handleCheckSession "a@b.c" {} {} 100 {} fxEmptyStore).body =
      .ok { hasConflict := false, shouldPrompt := false,
            message := some "No existing sessions found",
            activeSessions := none, currentDevice := none } ∧
    (handleCheckSession "a@b.c" {} {} 100 {} fxEmptyStore).body ≠
      (handleCheckSession "a@b.c" {} {} 100 {} fxStoreNoSessions).body := by
  decide

/-- C8 (amended): `/check-session` does not leak account existence through the
status code — a non-existent email gets the same 200 success (with
`hasConflict:false, shouldPrompt:false`) as an existing non-blocked user — but
the bodies are distinguishable (the non-existent branch has a fixed message and
omits `activeSessions`/`currentDevice`, which the existing branch always
populates); the blocked exception stands: a blocked user's email gets 403 on
`/check-session`, and a blocked user gets 403 on `/login` and
`/oauth-process`. -/
theorem blocked_403_and_checkSession_shape (email : String) (cdi : DeviceInfo)
    (meta : RequestMeta) (now : Time) (f : Faults) (s : Store) (u : User)
    (req : LoginRequest) (oreq : OAuthRequest) (ext : ExtUser) :
    (f.body = false → email ≠ "" → emailFormatOk email = true →
      findUserByEmail (strTrim (strToLower email)) f.userLookup s.users = none →
      handleCheckSession email cdi meta now f s =
        { status := 200
          body := .ok { hasConflict := false, shouldPrompt := false,
                        message := some "No existing sessions found",
                        activeSessions := none, currentDevice := none } }) ∧
    (f.body = false → email ≠ "" → emailFormatOk email = true →
      findUserByEmail (strTrim (strToLower email)) f.userLookup s.users = some u →
      u.is_blocked = false →
      (handleCheckSession email cdi meta now f s).status = 200 ∧
      ∃ d, (handleCheckSession email cdi meta now f s).body = .ok d ∧
        d.activeSessions.isSome = true ∧ d.currentDevice.isSome = true) ∧
    (f.body = false → email ≠ "" → emailFormatOk email = true →
      findUserByEmail (strTrim (strToLower email)) f.userLookup s.users = some u →
      u.is_blocked = true →
      (handleCheckSession email cdi meta now f s).status = 403) ∧
    (f.body = false → req.email ≠ "" → req.password ≠ "" →
      emailFormatOk req.email = true →
      findUserByEmail (strTrim (strToLower req.email)) f.userLookup s.users = some u →
      u.is_blocked = true →
      (handleLogin req meta now f s).status = 403) ∧
    (f.body = false → oreq.hasAccessToken = true →
      findUserByEmail ext.email f.userLookup s.users = some u →
      u.is_blocked = true →
      (handleOAuthProcess oreq (some ext) meta now f s).status = 403) := by
  refine ⟨?_, ?_, ?_, ?_, ?_⟩
  · intro hb he hfmt hfind
    simp [handleCheckSession, hb, he, hfmt, hfind]
  · intro hb he hfmt hfind hnb
    constructor
    · simp [handleCheckSession, hb, he, hfmt, hfind, hnb]
    · refine ⟨{ hasConflict := (checkSessionConflict u.user_id
                  (extractDeviceInfo meta.userAgent
                    { cdi with ipAddress := getIPAddress meta } now)
                  now f.conflictQuery s).hasConflict
                shouldPrompt := (checkSessionConflict u.user_id
                  (extractDeviceInfo meta.userAgent
                    { cdi with ipAddress := getIPAddress meta } now)
                  now f.conflictQuery s).shouldPrompt
                message := (checkSessionConflict u.user_id
                  (extractDeviceInfo meta.userAgent
                    { cdi with ipAddress := getIPAddress meta } now)
                  now f.conflictQuery s).message
                activeSessions := some (((checkSessionConflict u.user_id
                  (extractDeviceInfo meta.userAgent
                    { cdi with ipAddress := getIPAddress meta } now)
                  now f.conflictQuery s).activeSessions).map toPublicSession)
                currentDevice := some (extractDeviceInfo meta.userAgent
                  { cdi with ipAddress := getIPAddress meta } now) }, ?_, rfl, rfl⟩
      simp [handleCheckSession, hb, he, hfmt, hfind, hnb]
  · intro hb he hfmt hfind hbl
    simp [handleCheckSession, hb, he, hfmt, hfind, hbl]
  · intro hb he hp hfmt hfind hbl
    simp [handleLogin, hb, he, hp, hfmt, hfind, hbl]
  · intro hb hat hfind hbl
    simp [handleOAuthProcess, hb, hat, hfind, hbl]

/-- Witness for C8's amended theorem: the non-existent, existing, blocked,
blocked-login and blocked-oauth branches discharged on concrete stores. -/
theorem blocked_403_and_checkSession_shape_witness :
    handleCheckSession "a@b.c" {} {} 100 {} fxEmptyStore =
      { status := 200
        body := .ok { hasConflict := false, shouldPrompt := false,
                      message := some "No existing sessions found",
                      activeSessions := none, currentDevice := none } } ∧
    (handleCheckSession "a@b.c" {} {} 100 {} fxStoreNoSessions).status = 200 ∧
    (handleCheckSession "b@b.c" {} {} 100 {} fxStoreBlocked).status = 403 ∧
    (handleLogin { email := "b@b.c", password := "pw" } {} 100 {} fxStoreBlocked).status
      = 403 ∧
    (handleOAuthProcess {} (some { email := "b@b.c" }) {} 100 {} fxStoreBlocked).status
      = 403 :=
  ⟨(blocked_403_and_checkSession_shape "a@b.c" {} {} 100 {} fxEmptyStore fxUser {
      email := "", password := "" } {} { email := "" }).1 rfl (by decide) (by decide)
      (by decide),
    ((blocked_403_and_checkSession_shape "a@b.c" {} {} 100 {} fxStoreNoSessions fxUser {
      email := "", password := "" } {} { email := "" }).2.1 rfl (by decide) (by decide)
      (by decide) rfl).1,
    (blocked_403_and_checkSession_shape "b@b.c" {} {} 100 {} fxStoreBlocked fxBlockedUser {
      email := "", password := "" } {} { email := "" }).2.2.1 rfl (by decide) (by decide)
      (by decide) rfl,
    (blocked_403_and_checkSession_shape "b@b.c" {} {} 100 {} fxStoreBlocked fxBlockedUser {
      email := "b@b.c", password := "pw" } {} { email := "" }).2.2.2.1 rfl (by decide)
      (by decide) (by decide) (by decide) rfl,
    (blocked_403_and_checkSession_shape "b@b.c" {} {} 100 {} fxStoreBlocked fxBlockedUser {
      email := "", password := "" } {} { email := "b@b.c" }).2.2.2.2 rfl rfl (by decide)
      rfl⟩

/-- Witness for C7 at a concrete logout request. -/
theorem handleLogout_always_succeeds_witness :
    (handleLogout "/" {} 100 {} fxStore).status = 200 ∧
    (handleLogout "/" {} 100 {} fxStore).body.success = true ∧
    clearedCookie "exam_revise_session" none ∈ (handleLogout "/" {} 100 {} fxStore).cookies ∧
    clearedCookie "user" none ∈ (handleLogout "/" {} 100 {} fxStore).cookies ∧
    clearedCookie "user" none ∈ (handleLogout "/" {} 100 {} fxStore).cookies ∧
    (clearedCookie "user" none).pastDated = true :=
  ⟨(handleLogout_always_succeeds "/" {} 100 {} fxStore).1,
    (handleLogout_always_succeeds "/" {} 100 {} fxStore).2.1,
    (handleLogout_always_succeeds "/" {} 100 {} fxStore).2.2.1,
    (handleLogout_always_succeeds "/" {} 100 {} fxStore).2.2.2.1,
    by decide,
    (handleLogout_always_succeeds "/" {} 100 {} fxStore).2.2.2.2
      (clearedCookie "user" none) (by decide)⟩
